import Mathlib

/-!
Shallow embedding of `services/inputflinger/rust/input_filter.rs` (the
InputFilter chain orchestrator, its base stage, the modifier-state listener
and the thread-creator wrapper), together with theorems settling the claims
about it.

Conventions of the embedding:
- `binder::Result<T>` becomes `BinderResult T` (`ok` / `err`).
- The mutable `InputFilterState` behind the `Mutex` becomes an explicit
  `InputFilterState` value threaded through each operation.
- The downstream `IInputFilterCallbacks` receiver is modelled by
  `CallbacksModel`, which fixes the result each `sendKeyEvent` call returns;
  calls made on the receiver are recorded as a `ReceiverCall` trace.
- The chain of boxed `dyn Filter` trait objects becomes the inductive
  `Filter`: the three accessibility stage constructors record exactly the
  data the orchestrator passes them (inner chain and threshold). The
  internal behaviour of the sticky/slow/bounce stages lives in other source
  files that are not part of this slice, so chain dispatch
  (`Filter.notifyKeyModel`, `Filter.notifyDevicesChangedModel`) returns
  `none` (unknown) on those stages and is only resolved on the base stage,
  whose body is in this file.
- `.unwrap()` on a `Result` is modelled by `UnwrapResult`: a panic is
  `UnwrapResult.panicked`, which is not a `BinderResult` error returned to
  any caller.
-/

namespace InputFilterRs

/-- Status value carried by a failed binder call. One constructor suffices:
nothing in `input_filter.rs` inspects the status. -/
inductive BinderStatus where
  | failed
deriving DecidableEq, Repr

/-- Model of `binder::Result<T>` = `Result<T, binder::Status>`. -/
inductive BinderResult (α : Type) where
  | ok (value : α)
  | err (status : BinderStatus)
deriving DecidableEq, Repr

/-- True iff the result is `ok`. -/
def BinderResult.isOk {α : Type} : BinderResult α → Bool
  | BinderResult.ok _ => true
  | BinderResult.err _ => false

/-- The `KeyEvent` AIDL parcelable: all fields of the event record, carried
through unchanged by the base stage. Integer widths (i32/i64) only matter
for claims as value identity, so every field is `Int`. -/
structure KeyEvent where
  id : Int
  deviceId : Int
  downTime : Int
  readTime : Int
  eventTime : Int
  source : Int
  displayId : Int
  policyFlags : Int
  action : Int
  flags : Int
  keyCode : Int
  scanCode : Int
  metaState : Int
deriving DecidableEq, Repr

/-- The `DeviceInfo` AIDL parcelable. -/
structure DeviceInfo where
  deviceId : Int
  external : Bool
deriving DecidableEq, Repr

/-- The `InputFilterConfiguration` AIDL parcelable consumed by
`notifyConfigurationChanged`. Thresholds are i64 in the AIDL, hence `Int`
(negative values are representable, and the code compares with `> 0`). -/
structure InputFilterConfiguration where
  stickyKeysEnabled : Bool
  slowKeysThresholdNs : Int
  bounceKeysThresholdNs : Int
deriving DecidableEq, Repr

/-- One call made on the downstream `IInputFilterCallbacks` receiver. -/
inductive ReceiverCall where
  | sendKeyEvent (event : KeyEvent)
  | onModifierStateChanged (modifierState lockedModifierState : Int)
  | createInputFilterThread
deriving DecidableEq, Repr

/-- Model of the downstream receiver: the result its `sendKeyEvent`
returns. The real receiver is a binder proxy that may fail on any call;
the filter never inspects more than ok-versus-error. -/
structure CallbacksModel where
  sendResult : BinderResult Unit
deriving DecidableEq, Repr

/-- `callbacks.sendKeyEvent(event)` as seen by the base stage. -/
def CallbacksModel.sendKeyEvent (cb : CallbacksModel) (_event : KeyEvent) :
    BinderResult Unit :=
  cb.sendResult

/-- The chain of `dyn Filter` stages. `base` is `BaseFilter`; the other
constructors are the three accessibility stages with the data the
orchestrator supplies at construction (`StickyKeysFilter::new` also takes a
`ModifierStateListener` and `SlowKeysFilter::new` an `InputFilterThread`
handle; both are capability wrappers carrying no chain-relevant data). -/
inductive Filter where
  | base
  | stickyKeys (inner : Filter)
  | slowKeys (inner : Filter) (thresholdNs : Int)
  | bounceKeys (inner : Filter) (thresholdNs : Int)
deriving DecidableEq, Repr

/-- Kind tag of a stage, for talking about chain composition order. -/
inductive StageKind where
  | base
  | stickyKeys
  | slowKeys
  | bounceKeys
deriving DecidableEq, Repr

/-- The stages of a chain listed outermost (entry point of `notify_key`)
first, ending at the base stage. -/
def Filter.stagesOuterToInner : Filter → List StageKind
  | Filter.base => [StageKind.base]
  | Filter.stickyKeys inner => StageKind.stickyKeys :: inner.stagesOuterToInner
  | Filter.slowKeys inner _ => StageKind.slowKeys :: inner.stagesOuterToInner
  | Filter.bounceKeys inner _ => StageKind.bounceKeys :: inner.stagesOuterToInner

/-- Whether a stage of the given kind occurs anywhere in the chain. -/
def Filter.hasStage (f : Filter) (k : StageKind) : Bool :=
  f.stagesOuterToInner.contains k

/-- The `InputFilterState` struct guarded by the orchestrator mutex. -/
structure InputFilterState where
  first_filter : Filter
  enabled : Bool
deriving DecidableEq, Repr

/-- Outcome of `BaseFilter::notify_key`: the receiver calls it made, and
whether it logged a delivery failure (the `Ok(_) => ()` / `_ => error!`
match). It returns nothing to its caller in the source. -/
structure BaseNotifyOutcome where
  receiverCalls : List ReceiverCall
  loggedSendFailure : Bool
deriving DecidableEq, Repr

/-- `BaseFilter::notify_key`: calls `sendKeyEvent` on the receiver with the
event unchanged; an error result is logged and otherwise ignored. -/
def BaseFilter.notify_key (cb : CallbacksModel) (event : KeyEvent) :
    BaseNotifyOutcome :=
  { receiverCalls := [ReceiverCall.sendKeyEvent event]
    loggedSendFailure :=
      match cb.sendKeyEvent event with
      | BinderResult.ok _ => false
      | BinderResult.err _ => true }

/-- Chain dispatch of `notify_key`. Only the base stage body is in this
source file; the sticky/slow/bounce stage bodies live in other modules, so
dispatch on them is `none` (unmodelled), never a fabricated behaviour.
On the base stage it returns the (unchanged) stage and the base outcome. -/
def Filter.notifyKeyModel :
    Filter → CallbacksModel → KeyEvent → Option (Filter × BaseNotifyOutcome)
  | Filter.base, cb, event => some (Filter.base, BaseFilter.notify_key cb event)
  | _, _, _ => none

/-- Chain dispatch of `notify_devices_changed`.
`BaseFilter::notify_devices_changed` does nothing; other stage bodies are
not in this file, so `none`. -/
def Filter.notifyDevicesChangedModel :
    Filter → List DeviceInfo → Option Filter
  | Filter.base, _ => some Filter.base
  | _, _ => none

/-- `InputFilter::new` / `create_input_filter`: the initial state installs a
fresh `BaseFilter` as the chain head with `enabled: false`. -/
def InputFilter.newState : InputFilterState :=
  { first_filter := Filter.base, enabled := false }

/-- `IInputFilter::isEnabled`: locks the state and returns
`Ok(state.enabled)`. -/
def InputFilter.isEnabled (st : InputFilterState) : BinderResult Bool :=
  BinderResult.ok st.enabled

/-- Outcome of `IInputFilter::notifyKey`: the binder result returned to the
upstream caller, the state after the call and the base-stage outcome when
the chain head is the (modelled) base stage, `none` when the head is an
external stage whose body is not in this file. -/
structure NotifyKeyOutcome where
  result : BinderResult Unit
  state : Option InputFilterState
  baseOutcome : Option BaseNotifyOutcome
deriving DecidableEq, Repr

/-- `IInputFilter::notifyKey`: locks the state, calls `notify_key` on the
chain head, and returns `Ok(())` unconditionally. -/
def InputFilter.notifyKey (st : InputFilterState) (cb : CallbacksModel)
    (event : KeyEvent) : NotifyKeyOutcome :=
  match st.first_filter.notifyKeyModel cb event with
  | some (f, out) =>
      { result := BinderResult.ok ()
        state := some { st with first_filter := f }
        baseOutcome := some out }
  | none =>
      { result := BinderResult.ok (), state := none, baseOutcome := none }

/-- `IInputFilter::notifyInputDevicesChanged`: locks the state, calls
`notify_devices_changed` on the chain head, returns `Ok(())`
unconditionally. -/
def InputFilter.notifyInputDevicesChanged (st : InputFilterState)
    (deviceInfos : List DeviceInfo) : BinderResult Unit × Option InputFilterState :=
  match st.first_filter.notifyDevicesChangedModel deviceInfos with
  | some f => (BinderResult.ok (), some { st with first_filter := f })
  | none => (BinderResult.ok (), none)

/-- Observable events of one `notifyConfigurationChanged` call, in program
order: `destroy()` invoked on a chain head, and a new chain head installed
into the state. -/
inductive ConfigEvent where
  | destroyInvoked (chainHead : Filter)
  | installed (newHead : Filter)
deriving DecidableEq, Repr

/-- True iff the event is a `destroy()` invocation. -/
def ConfigEvent.isDestroy : ConfigEvent → Bool
  | ConfigEvent.destroyInvoked _ => true
  | ConfigEvent.installed _ => false

/-- Outcome of `IInputFilter::notifyConfigurationChanged`. -/
structure ConfigChangeOutcome where
  result : BinderResult Unit
  state : InputFilterState
  events : List ConfigEvent
deriving DecidableEq, Repr

/-- `IInputFilter::notifyConfigurationChanged`, translated line by line:
lock the state; `state.first_filter.destroy()`; start from a fresh
`BaseFilter`; if `config.stickyKeysEnabled` wrap in `StickyKeysFilter` and
set `state.enabled = true`; if `config.slowKeysThresholdNs > 0` wrap in
`SlowKeysFilter` and set `state.enabled = true`; if
`config.bounceKeysThresholdNs > 0` wrap in `BounceKeysFilter` and set
`state.enabled = true`; install the built chain as `state.first_filter`;
return `Ok(())`. Nothing in the body ever assigns `state.enabled = false`,
so the pair threaded below starts from the incoming `st.enabled`. -/
def InputFilter.notifyConfigurationChanged (st : InputFilterState)
    (config : InputFilterConfiguration) : ConfigChangeOutcome :=
  let first_filter0 : Filter := Filter.base
  let afterSticky : Filter × Bool :=
    if config.stickyKeysEnabled then
      (Filter.stickyKeys first_filter0, true)
    else
      (first_filter0, st.enabled)
  let afterSlow : Filter × Bool :=
    if 0 < config.slowKeysThresholdNs then
      (Filter.slowKeys afterSticky.1 config.slowKeysThresholdNs, true)
    else
      afterSticky
  let afterBounce : Filter × Bool :=
    if 0 < config.bounceKeysThresholdNs then
      (Filter.bounceKeys afterSlow.1 config.bounceKeysThresholdNs, true)
    else
      afterSlow
  { result := BinderResult.ok ()
    state := { first_filter := afterBounce.1, enabled := afterBounce.2 }
    events := [ConfigEvent.destroyInvoked st.first_filter,
               ConfigEvent.installed afterBounce.1] }

/-- Reinterpretation of a u32 bit pattern as an i32, the `bits() as i32`
cast in `ModifierStateListener::modifier_state_changed`. -/
def u32AsI32 (bits : Nat) : Int :=
  if bits % 2 ^ 32 < 2 ^ 31 then ((bits % 2 ^ 32 : Nat) : Int)
  else ((bits % 2 ^ 32 : Nat) : Int) - 2 ^ 32

/-- `ModifierStateListener::modifier_state_changed`: forwards the two
`ModifierState` bitsets, each cast `bits() as i32`, to the receiver method
`onModifierStateChanged`, discarding its result (`let _ = ...`). The value
returned is the full trace of receiver calls the body makes. -/
def ModifierStateListener.modifier_state_changed
    (modifier_state locked_modifier_state : Nat) : List ReceiverCall :=
  [ReceiverCall.onModifierStateChanged (u32AsI32 modifier_state)
      (u32AsI32 locked_modifier_state)]

/-- Opaque handle standing for a `Strong<dyn IInputThread>`. -/
structure InputThreadHandle where
  id : Nat
deriving DecidableEq, Repr

/-- Result of a Rust `.unwrap()`: either the value, or a panic — which
unwinds, and is not a `BinderResult` error returned to any caller. -/
inductive UnwrapResult (α : Type) where
  | value (a : α)
  | panicked
deriving DecidableEq, Repr

/-- `InputFilterThreadCreator::create`: calls `createInputFilterThread` on
the receiver and `.unwrap()`s the returned `binder::Result`; a host failure
therefore panics instead of being propagated as an error value.
`hostResult` is the result the host receiver returns for this call. -/
def InputFilterThreadCreator.create
    (hostResult : BinderResult InputThreadHandle) :
    UnwrapResult InputThreadHandle :=
  match hostResult with
  | BinderResult.ok t => UnwrapResult.value t
  | BinderResult.err _ => UnwrapResult.panicked

/-- Configuration enabling all three features. -/
def cfgAllOn : InputFilterConfiguration :=
  { stickyKeysEnabled := true, slowKeysThresholdNs := 100,
    bounceKeysThresholdNs := 100 }

/-- The default configuration: everything disabled. -/
def cfgAllOff : InputFilterConfiguration :=
  { stickyKeysEnabled := false, slowKeysThresholdNs := 0,
    bounceKeysThresholdNs := 0 }

/-- Configuration enabling sticky keys only. -/
def cfgStickyOnly : InputFilterConfiguration :=
  { stickyKeysEnabled := true, slowKeysThresholdNs := 0,
    bounceKeysThresholdNs := 0 }

/-- Configuration enabling slow keys only. -/
def cfgSlowOnly : InputFilterConfiguration :=
  { stickyKeysEnabled := false, slowKeysThresholdNs := 100,
    bounceKeysThresholdNs := 0 }

/-- A malformed configuration with a negative slow-keys threshold. -/
def cfgNegSlow : InputFilterConfiguration :=
  { stickyKeysEnabled := false, slowKeysThresholdNs := -1,
    bounceKeysThresholdNs := 0 }

/-- Claim C1 (evaluation at the failing input): the claim says that after
`notifyConfigurationChanged` with sticky keys off and both thresholds 0,
`isEnabled()` returns false for every prior state. The code, however, only
ever assigns `state.enabled = true` inside the three feature branches and
never clears it: after first enabling all three features and then applying
the all-off configuration, the chain is rebuilt down to the bare base stage
yet `isEnabled()` still returns true. -/
theorem C1_enabled_flag_never_cleared :
    InputFilter.isEnabled
        (InputFilter.notifyConfigurationChanged
          (InputFilter.notifyConfigurationChanged InputFilter.newState cfgAllOn).state
          cfgAllOff).state = BinderResult.ok true
    ∧ (InputFilter.notifyConfigurationChanged
          (InputFilter.notifyConfigurationChanged InputFilter.newState cfgAllOn).state
          cfgAllOff).state.first_filter = Filter.base := by
  decide

/-- Claim C2: for every configuration the rebuilt chain lists its stages,
outermost first, in the order bounce-keys, slow-keys, sticky-keys (each
present exactly when enabled) ending at the base stage; in particular when
all three features are enabled the installed chain is literally
`BounceKeysFilter(SlowKeysFilter(StickyKeysFilter(BaseFilter)))`, so a key
event entering at the head passes bounce-keys first, then slow-keys, then
sticky-keys, then base. -/
theorem C2_chain_wrap_priority_order :
    (∀ (st : InputFilterState) (config : InputFilterConfiguration),
      ((InputFilter.notifyConfigurationChanged st config).state.first_filter).stagesOuterToInner =
        (if 0 < config.bounceKeysThresholdNs then [StageKind.bounceKeys] else [])
          ++ (if 0 < config.slowKeysThresholdNs then [StageKind.slowKeys] else [])
          ++ (if config.stickyKeysEnabled then [StageKind.stickyKeys] else [])
          ++ [StageKind.base])
    ∧ (∀ (st : InputFilterState) (config : InputFilterConfiguration),
        config.stickyKeysEnabled = true →
        0 < config.slowKeysThresholdNs →
        0 < config.bounceKeysThresholdNs →
        (InputFilter.notifyConfigurationChanged st config).state.first_filter =
          Filter.bounceKeys
            (Filter.slowKeys (Filter.stickyKeys Filter.base)
              config.slowKeysThresholdNs)
            config.bounceKeysThresholdNs
        ∧ ((InputFilter.notifyConfigurationChanged st config).state.first_filter).stagesOuterToInner =
            [StageKind.bounceKeys, StageKind.slowKeys, StageKind.stickyKeys,
             StageKind.base]) := by
  constructor
  · intro st config
    obtain ⟨sk, slow, bounce⟩ := config
    by_cases h1 : sk <;> by_cases h2 : 0 < slow <;> by_cases h3 : 0 < bounce <;>
      simp [InputFilter.notifyConfigurationChanged, Filter.stagesOuterToInner,
        h1, h2, h3]
  · intro st config h1 h2 h3
    obtain ⟨sk, slow, bounce⟩ := config
    simp only at h1 h2 h3
    subst h1
    constructor <;>
      simp [InputFilter.notifyConfigurationChanged, Filter.stagesOuterToInner,
        h2, h3]

/-- Witness for C2 at a concrete input: all three features enabled from the
fresh state yields the bounce-slow-sticky-base nesting. -/
theorem C2_chain_wrap_priority_order_witness :
    (InputFilter.notifyConfigurationChanged InputFilter.newState cfgAllOn).state.first_filter =
      Filter.bounceKeys (Filter.slowKeys (Filter.stickyKeys Filter.base) 100) 100 :=
  (C2_chain_wrap_priority_order.2 InputFilter.newState cfgAllOn rfl (by decide)
    (by decide)).1

/-- Claim C3 (counterexample): the claim says a configuration with a
negative threshold is rejected before the rebuild begins, leaving the
previous chain installed with no `destroy()` invoked. On the code, applying
a configuration with `slowKeysThresholdNs = -1` after all three features
were enabled still destroys the old head and installs a fresh (base-only)
chain: destroy is invoked and the installed chain changes. -/
theorem C3_counterexample_negative_threshold_rebuilds :
    ((InputFilter.notifyConfigurationChanged
        (InputFilter.notifyConfigurationChanged InputFilter.newState cfgAllOn).state
        cfgNegSlow).events).filter ConfigEvent.isDestroy ≠ []
    ∧ (InputFilter.notifyConfigurationChanged
        (InputFilter.notifyConfigurationChanged InputFilter.newState cfgAllOn).state
        cfgNegSlow).state.first_filter ≠
      (InputFilter.notifyConfigurationChanged InputFilter.newState cfgAllOn).state.first_filter := by
  decide

/-- Claim C3 as amended: a negative threshold is not rejected; the call
proceeds with the normal rebuild (returning Ok, destroying the previous
head exactly once) and simply treats the non-positive threshold as the
feature being disabled, so no stage for that feature is installed. -/
theorem C3_negative_threshold_treated_as_disabled (st : InputFilterState)
    (config : InputFilterConfiguration) :
    (InputFilter.notifyConfigurationChanged st config).result = BinderResult.ok ()
    ∧ ((InputFilter.notifyConfigurationChanged st config).events).filter
        ConfigEvent.isDestroy = [ConfigEvent.destroyInvoked st.first_filter]
    ∧ (config.slowKeysThresholdNs < 0 →
        ((InputFilter.notifyConfigurationChanged st config).state.first_filter).hasStage
          StageKind.slowKeys = false)
    ∧ (config.bounceKeysThresholdNs < 0 →
        ((InputFilter.notifyConfigurationChanged st config).state.first_filter).hasStage
          StageKind.bounceKeys = false) := by
  obtain ⟨sk, slow, bounce⟩ := config
  refine ⟨rfl, ?_, ?_, ?_⟩
  · simp [InputFilter.notifyConfigurationChanged, ConfigEvent.isDestroy]
  · intro hneg
    simp only at hneg
    have h2 : ¬ (0 < slow) := by omega
    by_cases h1 : sk <;> by_cases h3 : 0 < bounce <;>
      simp [InputFilter.notifyConfigurationChanged, Filter.hasStage,
        Filter.stagesOuterToInner, h1, h2, h3]
  · intro hneg
    simp only at hneg
    have h3 : ¬ (0 < bounce) := by omega
    by_cases h1 : sk <;> by_cases h2 : 0 < slow <;>
      simp [InputFilter.notifyConfigurationChanged, Filter.hasStage,
        Filter.stagesOuterToInner, h1, h2, h3]

/-- Witness for the amended C3 at a concrete input: with the negative
slow-keys threshold, no slow-keys stage is installed. -/
theorem C3_negative_threshold_treated_as_disabled_witness :
    ((InputFilter.notifyConfigurationChanged InputFilter.newState cfgNegSlow).state.first_filter).hasStage
      StageKind.slowKeys = false :=
  (C3_negative_threshold_treated_as_disabled InputFilter.newState cfgNegSlow).2.2.1
    (by decide)

/-- Claim C4: on the freshly constructed orchestrator (no configuration
ever applied) `isEnabled()` returns false, `notifyKey` returns Ok, and the
base chain head forwards the event value itself — all fields equal — to the
receiver method `sendKeyEvent`, whatever result the receiver returns. -/
theorem C4_fresh_orchestrator_forwards_unchanged (cb : CallbacksModel)
    (event : KeyEvent) :
    InputFilter.isEnabled InputFilter.newState = BinderResult.ok false
    ∧ (InputFilter.notifyKey InputFilter.newState cb event).result = BinderResult.ok ()
    ∧ ((InputFilter.notifyKey InputFilter.newState cb event).baseOutcome).map
        BaseNotifyOutcome.receiverCalls = some [ReceiverCall.sendKeyEvent event] := by
  refine ⟨rfl, rfl, ?_⟩
  simp [InputFilter.notifyKey, InputFilter.newState, Filter.notifyKeyModel,
    BaseFilter.notify_key]

/-- Claim C5: a configuration enabling exactly one of the three features
makes `isEnabled()` report true afterwards, and a feature whose
configuration value is disabled (threshold 0, or sticky flag false) gets no
stage in the installed chain. -/
theorem C5_single_feature_enables (st : InputFilterState)
    (config : InputFilterConfiguration)
    (h : (config.stickyKeysEnabled = true ∧ config.slowKeysThresholdNs = 0
            ∧ config.bounceKeysThresholdNs = 0)
       ∨ (config.stickyKeysEnabled = false ∧ 0 < config.slowKeysThresholdNs
            ∧ config.bounceKeysThresholdNs = 0)
       ∨ (config.stickyKeysEnabled = false ∧ config.slowKeysThresholdNs = 0
            ∧ 0 < config.bounceKeysThresholdNs)) :
    InputFilter.isEnabled (InputFilter.notifyConfigurationChanged st config).state
      = BinderResult.ok true
    ∧ (config.slowKeysThresholdNs = 0 →
        ((InputFilter.notifyConfigurationChanged st config).state.first_filter).hasStage
          StageKind.slowKeys = false)
    ∧ (config.bounceKeysThresholdNs = 0 →
        ((InputFilter.notifyConfigurationChanged st config).state.first_filter).hasStage
          StageKind.bounceKeys = false)
    ∧ (config.stickyKeysEnabled = false →
        ((InputFilter.notifyConfigurationChanged st config).state.first_filter).hasStage
          StageKind.stickyKeys = false) := by
  obtain ⟨sk, slow, bounce⟩ := config
  simp only at h
  rcases h with ⟨h1, h2, h3⟩ | ⟨h1, h2, h3⟩ | ⟨h1, h2, h3⟩ <;> subst h1 <;>
    refine ⟨?_, ?_, ?_, ?_⟩ <;> intros <;>
    simp_all [InputFilter.notifyConfigurationChanged, InputFilter.isEnabled,
      Filter.hasStage, Filter.stagesOuterToInner]

/-- Witness for C5 at a concrete input: sticky keys alone enables the
orchestrator. -/
theorem C5_single_feature_enables_witness :
    InputFilter.isEnabled
        (InputFilter.notifyConfigurationChanged InputFilter.newState cfgStickyOnly).state
      = BinderResult.ok true :=
  (C5_single_feature_enables InputFilter.newState cfgStickyOnly
    (Or.inl (by refine ⟨rfl, rfl, rfl⟩))).1

/-- Claim C6: when the receiver's `sendKeyEvent` fails, the base stage logs
the failure and swallows it: the send was still attempted with the event
unchanged, the orchestrator state is unchanged, and `notifyKey` still
returns Ok to the upstream caller. -/
theorem C6_send_failure_swallowed (enabled : Bool) (s : BinderStatus)
    (event : KeyEvent) :
    InputFilter.notifyKey { first_filter := Filter.base, enabled := enabled }
        { sendResult := BinderResult.err s } event =
      { result := BinderResult.ok ()
        state := some { first_filter := Filter.base, enabled := enabled }
        baseOutcome := some
          { receiverCalls := [ReceiverCall.sendKeyEvent event]
            loggedSendFailure := true } } := by
  simp [InputFilter.notifyKey, Filter.notifyKeyModel, BaseFilter.notify_key,
    CallbacksModel.sendKeyEvent]

/-- Claim C7: every `notifyConfigurationChanged` call invokes `destroy()`
exactly once, on the previous chain head, and the invocation precedes the
installation of the replacement head in the observable event order. -/
theorem C7_destroy_once_before_install (st : InputFilterState)
    (config : InputFilterConfiguration) :
    ((InputFilter.notifyConfigurationChanged st config).events).filter
        ConfigEvent.isDestroy = [ConfigEvent.destroyInvoked st.first_filter]
    ∧ (InputFilter.notifyConfigurationChanged st config).events =
        [ConfigEvent.destroyInvoked st.first_filter,
         ConfigEvent.installed
           (InputFilter.notifyConfigurationChanged st config).state.first_filter] := by
  refine ⟨?_, rfl⟩
  simp [InputFilter.notifyConfigurationChanged, ConfigEvent.isDestroy]

/-- Claim C8 (counterexample): the claim says a host failure to supply a
timer thread is surfaced to the configuration caller as an error result of
`notifyConfigurationChanged`. On the code, `notifyConfigurationChanged`
returns Ok even for a configuration that installs the timing-dependent
slow-keys stage, and `InputFilterThreadCreator::create` reacts to a host
failure by unwrapping it — a panic, not an error result returned to any
caller. -/
theorem C8_counterexample_no_error_result :
    (InputFilter.notifyConfigurationChanged
        (InputFilter.notifyConfigurationChanged InputFilter.newState cfgAllOn).state
        cfgSlowOnly).result = BinderResult.ok ()
    ∧ InputFilterThreadCreator.create (BinderResult.err BinderStatus.failed)
        = UnwrapResult.panicked := by
  decide

/-- Claim C8 as amended: a host failure in `createInputFilterThread` makes
`InputFilterThreadCreator::create` panic via `.unwrap()` — an explicit
abort rather than a silently non-functional stage — but it is never
surfaced as an error result of `notifyConfigurationChanged`, which returns
Ok for every state and configuration. -/
theorem C8_thread_creation_failure_panics (st : InputFilterState)
    (config : InputFilterConfiguration) (s : BinderStatus) :
    InputFilterThreadCreator.create (BinderResult.err s) = UnwrapResult.panicked
    ∧ (InputFilter.notifyConfigurationChanged st config).result
        = BinderResult.ok () :=
  ⟨rfl, rfl⟩

/-- Claim C9: `modifier_state_changed` makes exactly one call on the
receiver, to `onModifierStateChanged`, passing both bitsets cast
`bits() as i32` with the 32-bit pattern preserved (the forwarded i32 equals
the original u32 modulo 2^32), and no other receiver operation occurs. -/
theorem C9_modifier_state_forwarded_verbatim (pressed locked : Nat)
    (hp : pressed < 2 ^ 32) (hl : locked < 2 ^ 32) :
    ModifierStateListener.modifier_state_changed pressed locked
      = [ReceiverCall.onModifierStateChanged (u32AsI32 pressed) (u32AsI32 locked)]
    ∧ u32AsI32 pressed % 2 ^ 32 = (pressed : Int)
    ∧ u32AsI32 locked % 2 ^ 32 = (locked : Int)
    ∧ ∀ c ∈ ModifierStateListener.modifier_state_changed pressed locked,
        ∃ p l, c = ReceiverCall.onModifierStateChanged p l := by
  refine ⟨rfl, ?_, ?_, ?_⟩
  · unfold u32AsI32
    rw [Nat.mod_eq_of_lt hp]
    split <;> omega
  · unfold u32AsI32
    rw [Nat.mod_eq_of_lt hl]
    split <;> omega
  · intro c hc
    simp [ModifierStateListener.modifier_state_changed] at hc
    subst hc
    exact ⟨_, _, rfl⟩

/-- Witness for C9 at concrete inputs, one below 2^31 and one with the top
bit set. -/
theorem C9_modifier_state_forwarded_verbatim_witness :
    ModifierStateListener.modifier_state_changed 3 2147483648
      = [ReceiverCall.onModifierStateChanged (u32AsI32 3) (u32AsI32 2147483648)]
    ∧ u32AsI32 3 % 2 ^ 32 = ((3 : Nat) : Int)
    ∧ u32AsI32 2147483648 % 2 ^ 32 = ((2147483648 : Nat) : Int)
    ∧ ∀ c ∈ ModifierStateListener.modifier_state_changed 3 2147483648,
        ∃ p l, c = ReceiverCall.onModifierStateChanged p l :=
  C9_modifier_state_forwarded_verbatim 3 2147483648 (by norm_num) (by norm_num)

/-- Claim C10: each of the four public binder operations returns an Ok
result for every state, receiver behaviour and input; no error result is
ever returned to the upstream caller. -/
theorem C10_all_operations_return_ok (st : InputFilterState)
    (cb : CallbacksModel) (event : KeyEvent) (deviceInfos : List DeviceInfo)
    (config : InputFilterConfiguration) :
    (InputFilter.isEnabled st).isOk = true
    ∧ ((InputFilter.notifyKey st cb event).result).isOk = true
    ∧ ((InputFilter.notifyInputDevicesChanged st deviceInfos).1).isOk = true
    ∧ ((InputFilter.notifyConfigurationChanged st config).result).isOk = true := by
  refine ⟨rfl, ?_, ?_, rfl⟩
  · unfold InputFilter.notifyKey
    cases st.first_filter.notifyKeyModel cb event <;> rfl
  · unfold InputFilter.notifyInputDevicesChanged
    cases st.first_filter.notifyDevicesChangedModel deviceInfos <;> rfl

end InputFilterRs
